import Mathlib

/-!
Verification of the escape-trip-planner repository core: the backoff
calculator and freshness cache (src/util/utils.py), the directory search
tool (src/tools/tools.py), the agent control loop shared by the guide,
reservationist and planner agents (src/agents/local_escape_room_guide.py,
src/agents/escape_room_reservationist.py, src/agents/escape_room_planner.py),
and the reservationist availability pipeline.

Python floats are modelled as exact rationals, the filesystem as an
association list from file names to entries, and the external
collaborators (model API, geocoder, directory API, MCP browser host) as
explicit outcome parameters.
-/

/- ## src/util/utils.py : constants -/

def MAX_RETRIES : Nat := 5

def BASE_DELAY : ℚ := 60

def MAX_DELAY : ℚ := 300

/-- src/tools/tools.py line 25: 30 days in seconds. -/
def CACHE_DURATION_SECONDS : Nat := 30 * 24 * 60 * 60

/- ## src/util/utils.py : calculate_backoff_delay -/

/-- src/util/utils.py lines 71-87. The call to random.random(), which
returns a float in [0, 1), is injected as the parameter r. -/
def calculate_backoff_delay (retry_count : Nat) (r : ℚ) : ℚ :=
  let delay := BASE_DELAY * 2 ^ retry_count
  let delay := min delay MAX_DELAY
  let jitter := delay * (1 / 4) * (2 * r - 1)
  delay + jitter

/- ## src/util/utils.py : the data/ file cache -/

/-- One file in the data/ directory: its JSON content and, when the
platform os.stat provides st_birthtime, its creation timestamp. -/
structure FileEntry (α : Type) where
  content : α
  birth : Option ℚ
  deriving DecidableEq, Repr

/-- The data/ directory: file name to entry, first binding wins. -/
abbrev FS (α : Type) := List (String × FileEntry α)

/-- src/util/utils.py lines 28-38 (dump_kb): write data to a JSON file in
the data directory, truncating any existing file. Truncating an existing
file keeps its creation time; creating a new file stamps it with now. -/
def dump_kb (fs : FS α) (data : α) (name : String) (now : ℚ) : FS α :=
  let birth := match fs.lookup name with
    | some old => old.birth
    | none => some now
  (name, ⟨data, birth⟩) :: fs

/-- src/util/utils.py lines 41-54 (get_kb_age_seconds): despite its name,
returns the st_birthtime TIMESTAMP of the cached file, or 0 when the file
is absent (FileNotFoundError) or the platform lacks st_birthtime
(AttributeError). -/
def get_kb_age_seconds (fs : FS α) (name : String) : ℚ :=
  match fs.lookup name with
  | some entry =>
    match entry.birth with
    | some t => t
    | none => 0
  | none => 0

/-- src/util/utils.py lines 57-68 (read_kb): parse the JSON file; absent
file raises, modelled as none. -/
def read_kb (fs : FS α) (name : String) : Option α :=
  (fs.lookup name).map FileEntry.content

/- ## src/tools/tools.py : search_escape_rooms -/

/-- The apostrophe character as a string (ASCII 39). -/
def apos : String := String.singleton (Char.ofNat 39)

/-- Outcome of geolocator.geocode(region): a location, None, or a raised
exception (caught by the generic handler). -/
inductive GeoOutcome where
  | found (lat lng : ℚ)
  | notFound
  | geoError (e : String)
  deriving DecidableEq, Repr

/-- Outcome of one attempted external fetch (httpx.post plus dump_kb in
mod _fetch_escape_rooms): simplified data, an httpx.HTTPStatusError, or any
other exception (transport or cache-storage failure). -/
inductive FetchOutcome (α : Type) where
  | ok (data : α)
  | httpError (e : String)
  | otherError (e : String)
  deriving DecidableEq, Repr

/-- Return type of search_escape_rooms: a listing payload or error text. -/
inductive SearchResult (α : Type) where
  | listings (data : α)
  | errorText (msg : String)
  deriving DecidableEq, Repr

/-- The cache file name built inline at src/tools/tools.py lines 137 and
163: the raw region string with a fixed suffix appended. -/
def cache_file_name (region : String) : String :=
  region ++ "_escape_rooms.json"

/-- src/tools/tools.py lines 142-176 (search_escape_rooms), with
_fetch_escape_rooms (lines 84-139) inlined as the fetched outcome.
External collaborators are injected: geo is the geocoding outcome, fetched
the outcome the directory API would produce if queried, now the clock.
Returns (result, resulting filesystem, number of external fetches
attempted). -/
def search_escape_rooms (region : String) (geo : GeoOutcome)
    (fetched : FetchOutcome α) (fs : FS α) (now : ℚ) :
    SearchResult α × FS α × Nat :=
  match geo with
  | .geoError e => (.errorText ("Error searching for escape rooms: " ++ e), fs, 0)
  | .notFound =>
    (.errorText ("Could not find coordinates for " ++ apos ++ region ++ apos
      ++ ". Try a more specific location."), fs, 0)
  | .found _ _ =>
    let cache_file := cache_file_name region
    let cache_age := now - get_kb_age_seconds fs cache_file
    if cache_age < (CACHE_DURATION_SECONDS : ℚ) then
      match read_kb fs cache_file with
      | some data => (.listings data, fs, 0)
      | none => (.errorText ("Error searching for escape rooms: " ++ cache_file), fs, 0)
    else
      match fetched with
      | .ok data => (.listings data, dump_kb fs data cache_file now, 1)
      | .httpError e => (.errorText ("API error searching for escape rooms: " ++ e), fs, 1)
      | .otherError e => (.errorText ("Error searching for escape rooms: " ++ e), fs, 1)

/- ## The agent control loop (identical in src/agents/local_escape_room_guide.py,
src/agents/escape_room_reservationist.py and src/agents/escape_room_planner.py) -/

/-- A tool call requested by an assistant message: name, JSON arguments
blob, and the call id pairing it with its ToolMessage. -/
structure ToolCall where
  name : String
  args : String
  id : String
  deriving DecidableEq, Repr

/-- A LangChain message: HumanMessage, AIMessage (with its tool_calls
list), ToolMessage (with its tool_call_id), or SystemMessage. -/
inductive Message where
  | human (content : String)
  | ai (content : String) (tool_calls : List ToolCall)
  | tool (content : String) (tool_call_id : String)
  | system (content : String)
  deriving DecidableEq, Repr

/-- The LangGraph AgentState shared by the three agents
(local_escape_room_guide.py lines 53-61, escape_room_reservationist.py
lines 138-147, escape_room_planner.py lines 122-138): messages accumulate
by append, the other fields are overwritten by node updates. -/
structure AgentState where
  messages : List Message
  retry_count : Nat
  rate_limited : Bool
  error_message : Option String
  deriving DecidableEq, Repr

/-- Outcome of one invocation of the model collaborator
(llm_with_tools.invoke): an assistant message, a rate-limit signal
(anthropic.RateLimitError or an httpx.HTTPStatusError with status 429),
or any other failure, which the except clause re-raises. -/
inductive ModelOutcome where
  | success (content : String) (tool_calls : List ToolCall)
  | rateLimit
  | fatal (e : String)
  deriving DecidableEq, Repr

/-- Outcome of one handler invocation (mcp_session.call_tool plus the
content extraction at escape_room_reservationist.py lines 210-217, whose
joined text is abstracted into the ok payload): result text, or a raised
exception rendered as its message. -/
inductive ToolOutcome where
  | ok (content : String)
  | raised (e : String)
  deriving DecidableEq, Repr

/-- The user-facing rate-limit text set by all three agent_node
functions (for example local_escape_room_guide.py line 93). -/
def rate_limit_fallback : String :=
  "Service temporarily unavailable due to rate limiting. Please try again later."

/-- agent_node (local_escape_room_guide.py lines 67-97,
escape_room_reservationist.py lines 153-187, escape_room_planner.py lines
237-273): on model success append the response and reset retry_count; on
a rate-limit signal increment the count, and past MAX_RETRIES flag
rate_limited with the fallback error_message; the sleep for
calculate_backoff_delay(retry_count) has no state effect. Any other model
failure re-raises, modelled as the error of the Except. -/
def agent_node (outcome : ModelOutcome) (state : AgentState) :
    Except String AgentState :=
  match outcome with
  | .success content calls =>
    .ok { state with messages := state.messages ++ [.ai content calls], retry_count := 0 }
  | .fatal e => .error e
  | .rateLimit =>
    let new_retry_count := state.retry_count + 1
    if new_retry_count > MAX_RETRIES then
      .ok { state with rate_limited := true, error_message := some rate_limit_fallback }
    else
      .ok { state with retry_count := new_retry_count }

/-- handle_rate_limit_error (local_escape_room_guide.py lines 100-110 and
its twin copies): append one assistant message carrying error_message or
a generic fallback. -/
def handle_rate_limit_error (state : AgentState) : AgentState :=
  { state with messages := state.messages ++
      [.ai (state.error_message.getD "Service temporarily unavailable. Please try again later.") []] }

/-- Target of the conditional edge out of the agent node. -/
inductive Route where
  | error
  | agent
  | tools
  | done
  deriving DecidableEq, Repr

/-- should_continue (local_escape_room_guide.py lines 113-139 and its twin
copies): error when rate limited, agent when a retry is pending, tools
when the last message is an AIMessage with a nonempty tool_calls list,
otherwise END. -/
def should_continue (state : AgentState) : Route :=
  if state.rate_limited then .error
  else if state.retry_count > 0 && !state.rate_limited then .agent
  else
    match state.messages.getLast? with
    | some (.ai _ calls) => if calls.isEmpty then .done else .tools
    | _ => .done

/-- escape_room_reservationist.py lines 204-223, one iteration of the
tool_node loop: invoke the handler for one tool call and build the
ToolMessage, converting a raised exception into error text. -/
def executeToolCall (exec : ToolCall → ToolOutcome) (tc : ToolCall) : Message :=
  match exec tc with
  | .ok content => .tool content tc.id
  | .raised e => .tool ("Error executing " ++ tc.name ++ ": " ++ e) tc.id

/-- tool_node (escape_room_reservationist.py lines 196-225): when the last
message is an AIMessage with a nonempty tool_calls list, run every handler
sequentially in issue order and append one ToolMessage per call; otherwise
append nothing. -/
def tool_node (exec : ToolCall → ToolOutcome) (state : AgentState) : AgentState :=
  match state.messages.getLast? with
  | some (.ai _ calls) =>
    if calls.isEmpty then state
    else { state with messages := state.messages ++ calls.map (executeToolCall exec) }
  | _ => state

/-- The compiled graph of create_agent_graph (local_escape_room_guide.py
lines 142-169 and its twin copies): START to agent; conditional edges from
agent to tools, error, agent or END; tools back to agent; error to END.
The script lists the outcome of each successive model call; the run fails
with an error when the script is exhausted before the graph terminates.
toolStep is the tool node (ToolNode(tools) for guide and planner, the
custom tool_node for the reservationist). -/
def runGraph (toolStep : AgentState → AgentState) :
    List ModelOutcome → AgentState → Except String AgentState
  | [], _ => .error "model script exhausted"
  | outcome :: rest, state =>
    match agent_node outcome state with
    | .error e => .error e
    | .ok s₁ =>
      match should_continue s₁ with
      | .error => .ok (handle_rate_limit_error s₁)
      | .done => .ok s₁
      | .agent => runGraph toolStep rest s₁
      | .tools => runGraph toolStep rest (toolStep s₁)

/- ## src/agents/escape_room_reservationist.py : structured output -/

/-- escape_room_reservationist.py lines 114-122 (TimeSlot). -/
structure TimeSlot where
  date : String
  time : String
  available : Bool
  spots_remaining : Option Nat
  price : Option String
  notes : Option String
  deriving DecidableEq, Repr

/-- escape_room_reservationist.py lines 125-135 (BookingAvailability). -/
structure BookingAvailability where
  escape_room_name : String
  venue_name : String
  url : String
  target_date : String
  available_slots : List TimeSlot
  dates_checked : List String
  booking_notes : Option String
  error : Option String
  deriving DecidableEq, Repr

/-- Python truthiness of an optional string: False for None and for the
empty string. -/
def truthyStr (o : Option String) : Bool :=
  match o with
  | some s => !(s == "")
  | none => false

/-- Python truthiness of an optional integer: False for None and for 0. -/
def truthyNat (o : Option Nat) : Bool :=
  match o with
  | some n => !(n == 0)
  | none => false

/-- check_availability (escape_room_reservationist.py lines 278-355).
hasApiKey models os.getenv on ANTHROPIC_API_KEY; finalContent is the
content of the final message of the agent run at line 345 (the browser
session and the agent conversation are external collaborators). Without
the key, the early return at lines 296-302; otherwise the return at lines
349-355: placeholder venue_name, the agent answer only in booking_notes,
and the slot and date lists left at their empty defaults. -/
def check_availability (url experience_name target_date : String)
    (hasApiKey : Bool) (finalContent : String) : BookingAvailability :=
  if !hasApiKey then
    { escape_room_name := experience_name
      venue_name := "Unknown"
      url := url
      target_date := target_date
      available_slots := []
      dates_checked := []
      booking_notes := none
      error := some "ANTHROPIC_API_KEY not set in environment" }
  else
    { escape_room_name := experience_name
      venue_name := "Extracted from agent response"
      url := url
      target_date := target_date
      available_slots := []
      dates_checked := []
      booking_notes := some finalContent
      error := none }

/- ## src/agents/escape_room_planner.py : check_room_availability -/

/-- escape_room_planner.py lines 211-218: render one time slot line. -/
def formatSlot (slot : TimeSlot) : String :=
  let status := if slot.available then "✓" else "✗"
  let line := "  " ++ status ++ " " ++ slot.date ++ " at " ++ slot.time
  let line := line ++
    (match slot.price with
     | some p => if p == "" then "" else " - " ++ p
     | none => "")
  let line := line ++
    (match slot.spots_remaining with
     | some n => if n == 0 then "" else " (" ++ toString n ++ " spots)"
     | none => "")
  line ++ "\n"

/-- check_room_availability (escape_room_planner.py lines 177-229). The
call check_availability_sync(url, room_name, target_date) is the
check_availability model above; exc models an exception raised by that
call (for example a failed npx launch), caught at lines 227-229. Python
truthiness of result.error and result.booking_notes is kept: an empty
string counts as absent. -/
def check_room_availability (url room_name target_date : String)
    (exc : Option String) (hasApiKey : Bool) (finalContent : String) : String :=
  match exc with
  | some e => "Error checking availability for " ++ room_name ++ ": " ++ e
  | none =>
    let result := check_availability url room_name target_date hasApiKey finalContent
    if truthyStr result.error then
      "Error checking availability: " ++ result.error.getD ""
    else
      let output := "Availability for " ++ result.escape_room_name ++ " at "
        ++ result.venue_name ++ ":\n" ++ "Target date: " ++ result.target_date ++ "\n"
      if result.available_slots.isEmpty then
        output ++ "\nNo specific slots found. " ++
          (if truthyStr result.booking_notes then
            "Notes: " ++ result.booking_notes.getD ""
          else "")
      else
        output ++ "\nAvailable slots:\n"
          ++ String.join (result.available_slots.map formatSlot)

/-- The tool_call_id carried by a ToolMessage (empty for other roles). -/
def tool_call_id_of : Message → String
  | .tool _ id => id
  | .human _ => ""
  | .ai _ _ => ""
  | .system _ => ""

/-- calculate_backoff_delay written without lets: the capped exponential
delay plus its jitter term. -/
theorem calculate_backoff_delay_eq (a : Nat) (r : ℚ) :
    calculate_backoff_delay a r
      = min (60 * 2 ^ a) 300 + min (60 * 2 ^ a) 300 * (1 / 4) * (2 * r - 1) := rfl

/-- C3: for every attempt count a in [0, 10] and every jitter sample r in
[0, 1), calculate_backoff_delay a r equals the capped delay
min (60 * 2 ^ a) 300 plus a jitter of at most a quarter of it, hence lies
between three quarters and five quarters of the capped delay and is
nonnegative. -/
theorem backoff_delay_within_jitter_band (a : Nat) (r : ℚ)
    (ha : a ≤ 10) (h0 : 0 ≤ r) (h1 : r < 1) :
    3 / 4 * min (60 * 2 ^ a) 300 ≤ calculate_backoff_delay a r
    ∧ calculate_backoff_delay a r ≤ 5 / 4 * min (60 * 2 ^ a) 300
    ∧ 0 ≤ calculate_backoff_delay a r := by
  have hd : (0 : ℚ) ≤ min (60 * 2 ^ a) 300 := le_min (by positivity) (by norm_num)
  rw [calculate_backoff_delay_eq]
  refine ⟨?_, ?_, ?_⟩ <;>
    nlinarith [mul_nonneg hd h0, mul_nonneg hd (sub_nonneg.mpr h1.le)]

/-- Witness for C3 at attempt 2 and sample one half. -/
theorem backoff_delay_within_jitter_band_witness :
    3 / 4 * min ((60 : ℚ) * 2 ^ (2 : Nat)) 300 ≤ calculate_backoff_delay 2 (1 / 2)
    ∧ calculate_backoff_delay 2 (1 / 2) ≤ 5 / 4 * min ((60 : ℚ) * 2 ^ (2 : Nat)) 300
    ∧ 0 ≤ calculate_backoff_delay 2 (1 / 2) :=
  backoff_delay_within_jitter_band 2 (1 / 2) (by norm_num) (by norm_num) (by norm_num)

/-- C1: from retry_count 0, five consecutive rate-limit signals followed
by a successful model response end the run in DONE with retry_count reset
to 0, rate_limited false, no error message set and no error message
appended; six consecutive rate-limit signals end the run in ERROR with
the configured fallback text as the final conversation message. -/
theorem control_loop_retry_bounds (q c : String) (toolStep : AgentState → AgentState) :
    runGraph toolStep
        (List.replicate MAX_RETRIES ModelOutcome.rateLimit ++ [ModelOutcome.success c []])
        ⟨[.human q], 0, false, none⟩
      = .ok ⟨[.human q, .ai c []], 0, false, none⟩
    ∧ runGraph toolStep
        (List.replicate (MAX_RETRIES + 1) ModelOutcome.rateLimit)
        ⟨[.human q], 0, false, none⟩
      = .ok ⟨[.human q, .ai rate_limit_fallback []], MAX_RETRIES, true, some rate_limit_fallback⟩ := by
  constructor <;> rfl

/-- C2: when the last message is an assistant message with tool calls,
tool_node appends exactly one ToolMessage per tool call, produced by
running the handlers sequentially in issue order; the appended messages
carry the matching call ids in the same order; and a handler that raises
is converted into a ToolMessage describing the error instead of aborting
the dispatch. -/
theorem tool_node_ordered_dispatch (exec : ToolCall → ToolOutcome)
    (pre : List Message) (c : String) (calls : List ToolCall)
    (rc : Nat) (rl : Bool) (em : Option String) :
    tool_node exec ⟨pre ++ [.ai c calls], rc, rl, em⟩
      = ⟨pre ++ [.ai c calls] ++ calls.map (executeToolCall exec), rc, rl, em⟩
    ∧ (calls.map (executeToolCall exec)).map tool_call_id_of = calls.map ToolCall.id
    ∧ (∀ tc e, exec tc = .raised e →
        executeToolCall exec tc
          = .tool ("Error executing " ++ tc.name ++ ": " ++ e) tc.id) := by
  refine ⟨?_, ?_, ?_⟩
  · cases calls with
    | nil => simp [tool_node, List.getLast?_concat]
    | cons hd tl => simp [tool_node, List.getLast?_concat]
  · rw [List.map_map]
    refine List.map_congr_left ?_
    intro tc _
    cases h : exec tc <;> simp [executeToolCall, tool_call_id_of, h]
  · intro tc e h
    simp [executeToolCall, h]

/-- Witness for C2: three browser calls in order, the first two handlers
succeed and the third raises; three ToolMessages appear in issue order
with matching ids, the third carrying the error text. -/
theorem tool_node_ordered_dispatch_witness :
    tool_node
        (fun tc => if tc.id == "c3" then ToolOutcome.raised "boom"
          else ToolOutcome.ok ("did " ++ tc.name))
        ⟨[Message.human "check the page",
          Message.ai "working"
            [⟨"browser_navigate", "u", "c1"⟩, ⟨"browser_snapshot", "", "c2"⟩,
             ⟨"browser_click", "b", "c3"⟩]], 0, false, none⟩
      = ⟨[Message.human "check the page",
          Message.ai "working"
            [⟨"browser_navigate", "u", "c1"⟩, ⟨"browser_snapshot", "", "c2"⟩,
             ⟨"browser_click", "b", "c3"⟩],
          Message.tool "did browser_navigate" "c1",
          Message.tool "did browser_snapshot" "c2",
          Message.tool "Error executing browser_click: boom" "c3"], 0, false, none⟩
    ∧ executeToolCall
        (fun tc => if tc.id == "c3" then ToolOutcome.raised "boom"
          else ToolOutcome.ok ("did " ++ tc.name))
        ⟨"browser_click", "b", "c3"⟩
      = Message.tool "Error executing browser_click: boom" "c3" := by
  have h := tool_node_ordered_dispatch
    (fun tc => if tc.id == "c3" then ToolOutcome.raised "boom"
      else ToolOutcome.ok ("did " ++ tc.name))
    [Message.human "check the page"] "working"
    [⟨"browser_navigate", "u", "c1"⟩, ⟨"browser_snapshot", "", "c2"⟩,
     ⟨"browser_click", "b", "c3"⟩] 0 false none
  exact ⟨h.1, h.2.2 ⟨"browser_click", "b", "c3"⟩ "boom" rfl⟩

/-- C4: with a geocoded region, a cache entry created 29 days ago
(2505600 seconds) is returned from the cache with no external fetch; an
entry created 31 days ago (2678400 seconds) is ignored, one external
fetch is performed and its data returned; and the expired entry is never
deleted — on a failed refetch the stored files are untouched, and on a
successful refetch the key is still present. -/
theorem cache_read_ttl_boundary {α : Type} (region : String) (v w : α)
    (la ln now : ℚ) (fs₁ fs₂ : FS α) (e : String)
    (h₁ : fs₁.lookup (cache_file_name region) = some ⟨v, some (now - 2505600)⟩)
    (h₂ : fs₂.lookup (cache_file_name region) = some ⟨v, some (now - 2678400)⟩) :
    search_escape_rooms region (.found la ln) (.ok w) fs₁ now = (.listings v, fs₁, 0)
    ∧ (search_escape_rooms region (.found la ln) (.ok w) fs₂ now).2.2 = 1
    ∧ (search_escape_rooms region (.found la ln) (.ok w) fs₂ now).1 = .listings w
    ∧ ((search_escape_rooms region (.found la ln) (.ok w) fs₂ now).2.1.lookup
        (cache_file_name region)).isSome = true
    ∧ (search_escape_rooms region (.found la ln) (.httpError e) fs₂ now).2.1 = fs₂ := by
  have hage₁ : now - get_kb_age_seconds fs₁ (cache_file_name region) = 2505600 := by
    simp [get_kb_age_seconds, h₁]
  have hage₂ : now - get_kb_age_seconds fs₂ (cache_file_name region) = 2678400 := by
    simp [get_kb_age_seconds, h₂]
  have hfresh : now - get_kb_age_seconds fs₁ (cache_file_name region)
      < (CACHE_DURATION_SECONDS : ℚ) := by
    rw [hage₁]; norm_num [CACHE_DURATION_SECONDS]
  have hstale : ¬ (now - get_kb_age_seconds fs₂ (cache_file_name region)
      < (CACHE_DURATION_SECONDS : ℚ)) := by
    rw [hage₂]; norm_num [CACHE_DURATION_SECONDS]
  refine ⟨?_, ?_, ?_, ?_, ?_⟩ <;>
    simp [search_escape_rooms, hfresh, hstale, read_kb, h₁, h₂, dump_kb, List.lookup]

/-- Witness for C4: a Boston cache entry aged 29 days is served with no
fetch; aged 31 days it is ignored, refetched once and left in place. -/
theorem cache_read_ttl_boundary_witness :
    search_escape_rooms "Boston" (.found 42 (-71)) (.ok (8 : ℚ))
        [("Boston_escape_rooms.json", ⟨7, some (3000000 - 2505600)⟩)] 3000000
      = (.listings 7, [("Boston_escape_rooms.json", ⟨7, some (3000000 - 2505600)⟩)], 0)
    ∧ (search_escape_rooms "Boston" (.found 42 (-71)) (.ok (8 : ℚ))
        [("Boston_escape_rooms.json", ⟨7, some (3000000 - 2678400)⟩)] 3000000).2.2 = 1
    ∧ (search_escape_rooms "Boston" (.found 42 (-71)) (.ok (8 : ℚ))
        [("Boston_escape_rooms.json", ⟨7, some (3000000 - 2678400)⟩)] 3000000).1
      = .listings 8
    ∧ ((search_escape_rooms "Boston" (.found 42 (-71)) (.ok (8 : ℚ))
        [("Boston_escape_rooms.json", ⟨7, some (3000000 - 2678400)⟩)] 3000000).2.1.lookup
          (cache_file_name "Boston")).isSome = true
    ∧ (search_escape_rooms "Boston" (.found 42 (-71)) (.httpError "500")
        [("Boston_escape_rooms.json", (⟨(7 : ℚ), some (3000000 - 2678400)⟩ : FileEntry ℚ))] 3000000).2.1
      = [("Boston_escape_rooms.json", ⟨7, some (3000000 - 2678400)⟩)] :=
  cache_read_ttl_boundary (α := ℚ) "Boston" 7 8 42 (-71) 3000000
    [("Boston_escape_rooms.json", ⟨7, some (3000000 - 2505600)⟩)]
    [("Boston_escape_rooms.json", ⟨7, some (3000000 - 2678400)⟩)] "500" rfl rfl

/-- C5: starting from an empty cache (at a clock at least 30 days past
the epoch), the first search for a region performs exactly one external
fetch, returns the fetched payload and stores it stamped with the current
time, so the reported age right after the write is 0; a second search for
the same region within 30 days performs zero fetches, leaves the stored
files unchanged and returns the identical payload. -/
theorem cache_round_trip {α : Type} (region : String) (v : α)
    (la la₂ ln ln₂ now₁ now₂ : ℚ) (fetched₂ : FetchOutcome α)
    (h₁ : (2592000 : ℚ) ≤ now₁) (h₂ : now₁ ≤ now₂) (h₃ : now₂ - now₁ < 2592000) :
    search_escape_rooms region (.found la ln) (.ok v) ([] : FS α) now₁
      = (.listings v, [(cache_file_name region, ⟨v, some now₁⟩)], 1)
    ∧ now₁ - get_kb_age_seconds
        [(cache_file_name region, (⟨v, some now₁⟩ : FileEntry α))]
        (cache_file_name region) = 0
    ∧ search_escape_rooms region (.found la₂ ln₂) fetched₂
        [(cache_file_name region, ⟨v, some now₁⟩)] now₂
      = (.listings v, [(cache_file_name region, ⟨v, some now₁⟩)], 0) := by
  have hage0 : get_kb_age_seconds ([] : FS α) (cache_file_name region) = 0 := by
    simp [get_kb_age_seconds]
  have hstale : ¬ (now₁ - get_kb_age_seconds ([] : FS α) (cache_file_name region)
      < (CACHE_DURATION_SECONDS : ℚ)) := by
    rw [hage0]
    norm_num [CACHE_DURATION_SECONDS]
    linarith
  have hage1 : get_kb_age_seconds
      [(cache_file_name region, (⟨v, some now₁⟩ : FileEntry α))]
      (cache_file_name region) = now₁ := by
    simp [get_kb_age_seconds, List.lookup]
  have hfresh : now₂ - get_kb_age_seconds
      [(cache_file_name region, (⟨v, some now₁⟩ : FileEntry α))]
      (cache_file_name region) < (CACHE_DURATION_SECONDS : ℚ) := by
    rw [hage1]
    norm_num [CACHE_DURATION_SECONDS]
    linarith
  refine ⟨?_, ?_, ?_⟩
  · simp [search_escape_rooms, hstale, dump_kb, List.lookup]
  · rw [hage1]; ring
  · simp [search_escape_rooms, hfresh, read_kb, List.lookup]

/-- Witness for C5: region Boston, empty cache, payload 7, first call at
clock 2592000 and second one second later. -/
theorem cache_round_trip_witness :
    search_escape_rooms "Boston" (.found 42 (-71)) (.ok (7 : ℚ)) ([] : FS ℚ) 2592000
      = (.listings 7, [(cache_file_name "Boston", ⟨7, some 2592000⟩)], 1)
    ∧ (2592000 : ℚ) - get_kb_age_seconds
        [(cache_file_name "Boston", (⟨7, some 2592000⟩ : FileEntry ℚ))]
        (cache_file_name "Boston") = 0
    ∧ search_escape_rooms "Boston" (.found 42 (-71)) (.ok (9 : ℚ))
        [(cache_file_name "Boston", ⟨7, some 2592000⟩)] 2592001
      = (.listings 7, [(cache_file_name "Boston", ⟨7, some 2592000⟩)], 0) :=
  cache_round_trip "Boston" 7 42 42 (-71) (-71) 2592000 2592001 (.ok 9)
    (by norm_num) (by norm_num) (by norm_num)

/-- C6 counterexample: a cached Boston entry whose creation time is
unavailable (no st_birthtime) is NOT served as a fresh hit — at clock
1700000000 the directory search performs one external fetch and returns
the freshly fetched payload 9, not the cached payload 7, refuting the
claim that the age-0 fallback masks a cold cache as a hit. -/
theorem missing_birthtime_counterexample :
    (search_escape_rooms "Boston" (.found 42 (-71)) (.ok (9 : ℚ))
        [("Boston_escape_rooms.json", ⟨7, none⟩)] 1700000000).2.2 = 1
    ∧ (search_escape_rooms "Boston" (.found 42 (-71)) (.ok (9 : ℚ))
        [("Boston_escape_rooms.json", ⟨7, none⟩)] 1700000000).1
      = .listings 9
    ∧ (search_escape_rooms "Boston" (.found 42 (-71)) (.ok (9 : ℚ))
        [("Boston_escape_rooms.json", ⟨7, none⟩)] 1700000000).1
      ≠ .listings 7 := by
  have hstale : ¬ ((1700000000 : ℚ) - get_kb_age_seconds
      [("Boston_escape_rooms.json", (⟨7, none⟩ : FileEntry ℚ))]
      (cache_file_name "Boston") < (CACHE_DURATION_SECONDS : ℚ)) := by
    have : get_kb_age_seconds
        [("Boston_escape_rooms.json", (⟨7, none⟩ : FileEntry ℚ))]
        (cache_file_name "Boston") = 0 := by
      simp [get_kb_age_seconds, cache_file_name, List.lookup]
    rw [this]
    norm_num [CACHE_DURATION_SECONDS]
  refine ⟨?_, ?_, ?_⟩ <;> simp [search_escape_rooms, hstale]

/-- C6 amended: when the creation time of the cache entry is unavailable
(missing file or no st_birthtime), get_kb_age_seconds returns 0 as a
TIMESTAMP, so the computed age equals the full clock value; whenever the
clock is at least 30 days past the epoch the entry is treated as stale
and the directory search refetches instead of serving the cache. -/
theorem missing_birthtime_refetches {α : Type} (region : String)
    (fetched : FetchOutcome α) (la ln now : ℚ) (fs : FS α)
    (h : get_kb_age_seconds fs (cache_file_name region) = 0)
    (hnow : (CACHE_DURATION_SECONDS : ℚ) ≤ now) :
    (search_escape_rooms region (.found la ln) fetched fs now).2.2 = 1 := by
  have hstale : ¬ (now - get_kb_age_seconds fs (cache_file_name region)
      < (CACHE_DURATION_SECONDS : ℚ)) := by
    rw [h]
    simpa using hnow
  cases fetched <;> simp [search_escape_rooms, hstale]

/-- Witness for C6 amended: a Boston entry without st_birthtime at clock
2592000 triggers one external fetch. -/
theorem missing_birthtime_refetches_witness :
    (search_escape_rooms "Boston" (.found 42 (-71)) (.ok (9 : ℚ))
        [("Boston_escape_rooms.json", ⟨7, none⟩)] 2592000).2.2 = 1 :=
  missing_birthtime_refetches "Boston" (.ok 9) 42 (-71) 2592000
    [("Boston_escape_rooms.json", ⟨7, none⟩)] rfl (by norm_num [CACHE_DURATION_SECONDS])

/-- C7 counterexample: for region Greenville, SC the storage key is the
raw region string, comma and space included, with the fixed suffix
appended — no whitespace or punctuation is collapsed or removed. -/
theorem cache_key_unsanitized_counterexample :
    cache_file_name "Greenville, SC" = "Greenville, SC_escape_rooms.json"
    ∧ ("Greenville, SC".toList).isPrefixOf (cache_file_name "Greenville, SC").toList
      = true := by
  constructor
  · rfl
  · decide

/-- C7 amended: for every region, the key under which the directory
search persists cached results is the raw region string with
_escape_rooms.json appended, with no sanitization; a successful fetch
stores the payload under exactly that key. -/
theorem cache_key_is_raw_region {α : Type} (region : String) (v : α)
    (la ln now : ℚ) (h : (CACHE_DURATION_SECONDS : ℚ) ≤ now) :
    cache_file_name region = region ++ "_escape_rooms.json"
    ∧ (search_escape_rooms region (.found la ln) (.ok v) ([] : FS α) now).2.1.lookup
        (region ++ "_escape_rooms.json") = some ⟨v, some now⟩ := by
  refine ⟨rfl, ?_⟩
  have hage0 : get_kb_age_seconds ([] : FS α) (cache_file_name region) = 0 := by
    simp [get_kb_age_seconds]
  have hstale : ¬ (now - get_kb_age_seconds ([] : FS α) (cache_file_name region)
      < (CACHE_DURATION_SECONDS : ℚ)) := by
    rw [hage0, sub_zero]
    exact not_lt.mpr h
  rw [show region ++ "_escape_rooms.json" = cache_file_name region from rfl]
  simp [search_escape_rooms, hstale, dump_kb, List.lookup]

/-- Witness for C7 amended: region Greenville, SC at clock 2592000. -/
theorem cache_key_is_raw_region_witness :
    cache_file_name "Greenville, SC" = "Greenville, SC" ++ "_escape_rooms.json"
    ∧ (search_escape_rooms "Greenville, SC" (.found 42 (-71)) (.ok (7 : ℚ))
        ([] : FS ℚ) 2592000).2.1.lookup
        ("Greenville, SC" ++ "_escape_rooms.json") = some ⟨7, some 2592000⟩ :=
  cache_key_is_raw_region "Greenville, SC" 7 42 (-71) 2592000
    (by norm_num [CACHE_DURATION_SECONDS])

/-- C8: the directory search is total over its failure cases — for every
geocoding outcome, fetch outcome, cache state and clock it returns either
a listings payload or an error string; a geocoding miss yields the
documented not-found text, a geocoding exception the generic error text,
and on a stale cache an HTTP failure or any other fetch failure yields
the corresponding descriptive error text instead of an exception. -/
theorem search_total_error_handling {α : Type} :
    (∀ (region : String) (geo : GeoOutcome) (fetched : FetchOutcome α)
        (fs : FS α) (now : ℚ),
      (∃ data, (search_escape_rooms region geo fetched fs now).1 = .listings data)
      ∨ (∃ msg, (search_escape_rooms region geo fetched fs now).1 = .errorText msg))
    ∧ (∀ (region : String) (fetched : FetchOutcome α) (fs : FS α) (now : ℚ),
      (search_escape_rooms region .notFound fetched fs now).1
        = .errorText ("Could not find coordinates for " ++ apos ++ region ++ apos
            ++ ". Try a more specific location."))
    ∧ (∀ (region e : String) (fetched : FetchOutcome α) (fs : FS α) (now : ℚ),
      (search_escape_rooms region (.geoError e) fetched fs now).1
        = .errorText ("Error searching for escape rooms: " ++ e))
    ∧ (∀ (region e : String) (la ln now : ℚ) (fs : FS α),
      (CACHE_DURATION_SECONDS : ℚ) ≤ now - get_kb_age_seconds fs (cache_file_name region) →
        (search_escape_rooms region (.found la ln) (.httpError e) fs now).1
          = .errorText ("API error searching for escape rooms: " ++ e)
        ∧ (search_escape_rooms region (.found la ln) (.otherError e) fs now).1
          = .errorText ("Error searching for escape rooms: " ++ e)) := by
  refine ⟨?_, ?_, ?_, ?_⟩
  · intro region geo fetched fs now
    cases geo with
    | geoError e => exact Or.inr ⟨_, rfl⟩
    | notFound => exact Or.inr ⟨_, rfl⟩
    | found la ln =>
      by_cases hc : now - get_kb_age_seconds fs (cache_file_name region)
          < (CACHE_DURATION_SECONDS : ℚ)
      · cases hr : read_kb fs (cache_file_name region) with
        | some data =>
          exact Or.inl ⟨data, by simp [search_escape_rooms, hc, hr]⟩
        | none =>
          refine Or.inr ⟨"Error searching for escape rooms: " ++ cache_file_name region, ?_⟩
          simp [search_escape_rooms, hc, hr]
      · cases fetched with
        | ok data => exact Or.inl ⟨data, by simp [search_escape_rooms, hc]⟩
        | httpError e =>
          refine Or.inr ⟨"API error searching for escape rooms: " ++ e, ?_⟩
          simp [search_escape_rooms, hc]
        | otherError e =>
          refine Or.inr ⟨"Error searching for escape rooms: " ++ e, ?_⟩
          simp [search_escape_rooms, hc]
  · intro region fetched fs now
    rfl
  · intro region e fetched fs now
    rfl
  · intro region e la ln now fs h
    have hc : ¬ (now - get_kb_age_seconds fs (cache_file_name region)
        < (CACHE_DURATION_SECONDS : ℚ)) := not_lt.mpr h
    exact ⟨by simp [search_escape_rooms, hc], by simp [search_escape_rooms, hc]⟩

/-- Witness for C8: an unlocatable region returns the not-found text, and
an HTTP 500 on an empty cache returns the API-error text. -/
theorem search_total_error_handling_witness :
    (search_escape_rooms "Atlantis" .notFound (.ok (0 : ℚ)) ([] : FS ℚ) 3000000).1
      = .errorText ("Could not find coordinates for " ++ apos ++ "Atlantis" ++ apos
          ++ ". Try a more specific location.")
    ∧ (search_escape_rooms "Boston" (.found 42 (-71)) (.httpError "500")
        ([] : FS ℚ) 3000000).1
      = .errorText ("API error searching for escape rooms: " ++ "500") :=
  ⟨search_total_error_handling.2.1 "Atlantis" (.ok 0) [] 3000000,
    (search_total_error_handling.2.2.2 "Boston" "500" 42 (-71) 3000000 []
      (by norm_num [get_kb_age_seconds, CACHE_DURATION_SECONDS])).1⟩

/-- C9 counterexample: a check_availability run without the API key
returns a BookingAvailability whose venue_name is Unknown, not the
placeholder text, refuting the claim for every returned value. -/
theorem venue_name_missing_key_counterexample :
    (check_availability "http://redfoxescapes.com" "The Body Shop" "2026-02-01"
        false "").venue_name = "Unknown"
    ∧ (check_availability "http://redfoxescapes.com" "The Body Shop" "2026-02-01"
        false "").venue_name ≠ "Extracted from agent response" := by
  constructor
  · rfl
  · decide

/-- C9 amended: every BookingAvailability returned by a check_availability
run with the API key present reports the placeholder venue_name
Extracted from agent response, regardless of the agent conversation; the
missing-key early return instead reports Unknown. -/
theorem venue_name_placeholder (url experience_name target_date content : String) :
    (check_availability url experience_name target_date true content).venue_name
      = "Extracted from agent response"
    ∧ (check_availability url experience_name target_date false content).venue_name
      = "Unknown" :=
  ⟨rfl, rfl⟩

/-- C10: every BookingAvailability returned by a completed (key-present)
check_availability run has empty available_slots and empty dates_checked,
with the agent answer only in booking_notes; consequently the
orchestrator check_room_availability always renders the
No specific slots found branch and never formats individual time slots. -/
theorem completed_run_has_no_slots (url room_name target_date content : String) :
    (check_availability url room_name target_date true content).available_slots = []
    ∧ (check_availability url room_name target_date true content).dates_checked = []
    ∧ (check_availability url room_name target_date true content).booking_notes
      = some content
    ∧ check_room_availability url room_name target_date none true content
      = "Availability for " ++ room_name ++ " at " ++ "Extracted from agent response"
        ++ ":\n" ++ "Target date: " ++ target_date ++ "\n"
        ++ "\nNo specific slots found. "
        ++ (if content == "" then "" else "Notes: " ++ content) := by
  refine ⟨rfl, rfl, rfl, ?_⟩
  cases hc : content == "" <;>
    simp [check_room_availability, check_availability, truthyStr, hc]
